import Mathlib

/-!
Shallow embedding of `src/service/transform-service.py`, the
sesam-community/utm-to-latlong microservice.

The coordinate-transform engine (lines 30-223 of the source) is pure float
arithmetic; it is modelled over the real numbers, with `math.sin`, `math.cos`,
`math.tan` and `math.sqrt` mapped to their real counterparts, and
`math.pow(x, k)` for the literal natural exponents used by the source mapped
to `x ^ k`.  The constant `pi` is the source's literal
`3.14159265358979`, not the mathematical constant.

The record-processing layer (`transform_entity`, lines 226-365) is modelled
over an explicit JSON-scalar datatype whose numbers are rationals (JSON
number literals are finite decimals, hence exact rationals); Python's
`float(...)` and `int(...)` builtins are modelled by executable parsers over
that datatype.  Non-finite float literals (`inf`, `nan`) and underscore
digit separators are outside the model, as a rational cannot hold them.
-/

namespace TransformService

/-! ## The coordinate transform engine (source lines 30-223) -/

/-- Source line 30: `pi = 3.14159265358979` (a literal, not the real π). -/
noncomputable def pi : ℝ := 3.14159265358979

/-- Source line 32: WGS84 semi-major axis. -/
noncomputable def sm_a : ℝ := 6378137.0

/-- Source line 33: WGS84 semi-minor axis. -/
noncomputable def sm_b : ℝ := 6356752.314

/-- Source line 36. -/
noncomputable def UTMScaleFactor : ℝ := 0.9996

/-- Source lines 54-58: `deg_to_rad(deg) = deg / 180.0 * pi`. -/
noncomputable def deg_to_rad (deg : ℝ) : ℝ := deg / 180.0 * pi

/-- Source lines 61-65: `rad_to_deg(rad) = rad / pi * 180.0`. -/
noncomputable def rad_to_deg (rad : ℝ) : ℝ := rad / pi * 180.0

/-- Source lines 39-51: `utm_central_meridian(zone) = deg_to_rad(-183.0 + zone*6.0)`.
The body performs no range check on `zone` (despite the docstring in the
source claiming a `[1,60]` range). -/
noncomputable def utm_central_meridian (zone : ℝ) : ℝ :=
  deg_to_rad (-183.0 + zone * 6.0)

/-- Source lines 68-108: the footpoint-latitude series. -/
noncomputable def footpoint_laititude (y : ℝ) : ℝ :=
  let n := (sm_a - sm_b) / (sm_a + sm_b)
  let alpha_ := ((sm_a + sm_b) / 2.0) * (1 + n ^ 2 / 4 + n ^ 4 / 64)
  let y_ := y / alpha_
  let beta_ := 3.0 * n / 2.0 + -27.0 * n ^ 3 / 32.0 + 269.0 * n ^ 5 / 512.0
  let gamma_ := 21.0 * n ^ 2 / 16.0 + -55.0 * n ^ 4 / 32.0
  let delta_ := 151.0 * n ^ 3 / 96.0 + -417.0 * n ^ 5 / 128.0
  let epsilon_ := 1097.0 * n ^ 4 / 512.0
  y_ + beta_ * Real.sin (2.0 * y_) + gamma_ * Real.sin (4.0 * y_) +
    delta_ * Real.sin (6.0 * y_) + epsilon_ * Real.sin (8.0 * y_)

/-- Source lines 111-208: inverse Transverse Mercator series.  The running
product `Nfpow` of the source is written out as `Nfpow1 = Nf`,
`Nfpow2 = Nfpow1 * Nf`, ..., exactly as the source builds it. -/
noncomputable def map_xy_to_lat_lon (x y lambda0 : ℝ) : ℝ × ℝ :=
  let phif := footpoint_laititude y
  let ep2 := (sm_a ^ 2 - sm_b ^ 2) / sm_b ^ 2
  let cf := Real.cos phif
  let nuf2 := ep2 * cf ^ 2
  let Nf := sm_a ^ 2 / (sm_b * Real.sqrt (1 + nuf2))
  let Nfpow1 := Nf
  let tf := Real.tan phif
  let tf2 := tf * tf
  let tf4 := tf2 * tf2
  let x1frac := 1.0 / (Nfpow1 * cf)
  let Nfpow2 := Nfpow1 * Nf
  let x2frac := tf / (2.0 * Nfpow2)
  let Nfpow3 := Nfpow2 * Nf
  let x3frac := 1.0 / (6.0 * Nfpow3 * cf)
  let Nfpow4 := Nfpow3 * Nf
  let x4frac := tf / (24.0 * Nfpow4)
  let Nfpow5 := Nfpow4 * Nf
  let x5frac := 1.0 / (120.0 * Nfpow5 * cf)
  let Nfpow6 := Nfpow5 * Nf
  let x6frac := tf / (720.0 * Nfpow6)
  let Nfpow7 := Nfpow6 * Nf
  let x7frac := 1.0 / (5040.0 * Nfpow7 * cf)
  let Nfpow8 := Nfpow7 * Nf
  let x8frac := tf / (40320.0 * Nfpow8)
  let x2poly := -1.0 - nuf2
  let x3poly := -1.0 - 2 * tf2 - nuf2
  let x4poly := 5.0 + 3.0 * tf2 + 6.0 * nuf2 - 6.0 * tf2 * nuf2 -
    3.0 * (nuf2 * nuf2) - 9.0 * tf2 * (nuf2 * nuf2)
  let x5poly := 5.0 + 28.0 * tf2 + 24.0 * tf4 + 6.0 * nuf2 + 8.0 * tf2 * nuf2
  let x6poly := -61.0 - 90.0 * tf2 - 45.0 * tf4 - 107.0 * nuf2 + 162.0 * tf2 * nuf2
  let x7poly := -61.0 - 662.0 * tf2 - 1320.0 * tf4 - 720.0 * (tf4 * tf2)
  let x8poly := 1385.0 + 3633.0 * tf2 + 4095.0 * tf4 + 1575 * (tf4 * tf2)
  let latitude := phif + x2frac * x2poly * (x * x) + x4frac * x4poly * x ^ 4 +
    x6frac * x6poly * x ^ 6 + x8frac * x8poly * x ^ 8
  let longitude := lambda0 + x1frac * x + x3frac * x3poly * x ^ 3 +
    x5frac * x5poly * x ^ 5 + x7frac * x7poly * x ^ 7
  (latitude, longitude)

/-- Source lines 211-223: remove the false easting, adjust the false
northing for the southern hemisphere, unscale by `k0`, and invert. -/
noncomputable def utm_xy_to_lat_lon (x y zone : ℝ)
    (northernHemisphere : Bool := true) : ℝ × ℝ :=
  let x1 := x - 500000.0
  let x2 := x1 / UTMScaleFactor
  let y1 := if northernHemisphere then y else y - 10000000.0
  let y2 := y1 / UTMScaleFactor
  let cmeridian := utm_central_meridian zone
  map_xy_to_lat_lon x2 y2 cmeridian

/-! ## The record model

A decoded JSON record is an ordered mapping from field names to values; a
value is a scalar (text, number, boolean, null) or a sequence of scalars. -/

/-- A JSON scalar as decoded by the service's JSON layer.  JSON number
literals are finite decimals, modelled exactly as rationals. -/
inductive Scalar where
  | str (s : String)
  | num (q : ℚ)
  | bool (b : Bool)
  | null
deriving DecidableEq

/-- A record field value: a scalar or a sequence of scalars. -/
inductive Value where
  | scalar (s : Scalar)
  | list (xs : List Scalar)
deriving DecidableEq

/-- A decoded record: an insertion-ordered association list, as a Python
dict with string keys. -/
abbrev Entity := List (String × Value)

/-- First-match lookup, as Python `key in dict` / `dict.get(key)`. -/
def lookupField {α : Type} : List (String × α) → String → Option α
  | [], _ => none
  | (k, v) :: rest, key => if k == key then some v else lookupField rest key

/-- Python `dict[key] = value`: overwrite in place if the key is present
(keeping its position), else append at the end. -/
def setField {α : Type} : List (String × α) → String → α → List (String × α)
  | [], key, v => [(key, v)]
  | (k, w) :: rest, key, v =>
    if k == key then (key, v) :: rest else (k, w) :: setField rest key v

/-- The configuration options read from the environment at source
lines 12-22.  All of them are strings there. -/
structure Config where
  easting_property : String
  northing_property : String
  zone_property : String
  zone_default : String
  hemi_property : String
  hemi_default : String
  hemi_northern_value : String
  lat_property : String
  long_property : String
  include_latlong : String
  latlong_property : String

/-- The default configuration values of source lines 12-22. -/
def defaultConfig : Config :=
  ⟨"easting", "northing", "zone", "32", "hemi", "0", "0",
   "lat", "long", "False", "lat_long"⟩

/-! ## Python builtin semantics used by `transform_entity` -/

/-- Python truthiness of a scalar (`not value` at source lines 268/285):
empty string, zero, `False` and `None` are falsy. -/
def pyFalsy : Scalar → Bool
  | .str s => s == ""
  | .num q => q == 0
  | .bool b => !b
  | .null => true

/-- ASCII whitespace, the characters Python's `str.strip` removes (the
unicode space classes are outside the model). -/
def isSpaceChar (c : Char) : Bool :=
  c == ' ' || c == '\t' || c == '\n' || c == '\r' ||
  c == '\x0b' || c == '\x0c'

/-- Python `s.strip()`: remove leading and trailing whitespace. -/
def pyStrip (s : String) : String :=
  ⟨((s.toList.dropWhile isSpaceChar).reverse.dropWhile isSpaceChar).reverse⟩

/-- Python `s.lower()` over the ASCII range. -/
def pyLower (s : String) : String :=
  ⟨s.toList.map Char.toLower⟩

/-- Source lines 308-318: `value.strip()` applied only when the value is
textual. -/
def pyStripIfStr : Scalar → Scalar
  | .str s => .str (pyStrip s)
  | v => v

/-- Numeric value of a list of decimal digits. -/
def digitsVal (cs : List Char) : ℕ :=
  cs.foldl (fun a c => 10 * a + (c.toNat - 48)) 0

/-- Optional exponent part of a Python float literal: empty, or
`(e|E) sign? digits`, which must consume the whole remainder. -/
def parseExp (cs : List Char) (m : ℚ) : Option ℚ :=
  match cs with
  | [] => some m
  | c :: rest =>
    if c == 'e' || c == 'E' then
      let (sgn, rest2) : Bool × List Char :=
        match rest with
        | '+' :: r => (true, r)
        | '-' :: r => (false, r)
        | r => (true, r)
      let (ds, rest3) := rest2.span Char.isDigit
      if ds.isEmpty || !rest3.isEmpty then none
      else some (if sgn then m * 10 ^ digitsVal ds else m / 10 ^ digitsVal ds)
    else none

/-- Unsigned part of a Python float literal:
`digits [. digits?] | . digits`, with an optional exponent. -/
def parseUnsigned (cs : List Char) : Option ℚ :=
  let (ip, r1) := cs.span Char.isDigit
  match r1 with
  | '.' :: r2 =>
    let (fp, r3) := r2.span Char.isDigit
    if ip.isEmpty && fp.isEmpty then none
    else parseExp r3 ((digitsVal ip : ℚ) + (digitsVal fp : ℚ) / 10 ^ fp.length)
  | _ => if ip.isEmpty then none else parseExp r1 (digitsVal ip)

/-- Python `float(s)` on an (already stripped) string: optional sign then
the unsigned literal grammar.  `none` models the `ValueError` path. -/
def parseFloat (s : String) : Option ℚ :=
  match s.toList with
  | '+' :: rest => parseUnsigned rest
  | '-' :: rest => (parseUnsigned rest).map Neg.neg
  | cs => parseUnsigned cs

/-- Digits-only integer literal body. -/
def parseIntDigits (cs : List Char) : Option ℤ :=
  if cs.isEmpty || !cs.all Char.isDigit then none
  else some (digitsVal cs : ℤ)

/-- Python `int(s)` on an (already stripped) string: optional sign then
decimal digits; a fractional or exponent part is a `ValueError`. -/
def parseIntStr (s : String) : Option ℤ :=
  match s.toList with
  | '+' :: rest => parseIntDigits rest
  | '-' :: rest => (parseIntDigits rest).map Neg.neg
  | cs => parseIntDigits cs

/-- Truncation toward zero, as Python `int()` applied to a float. -/
def ratTrunc (q : ℚ) : ℤ := if 0 ≤ q then ⌊q⌋ else ⌈q⌉

/-- Python `float(value)` on a scalar: numbers pass through, booleans map
to 0/1, strings parse, `None` raises (modelled as `none`). -/
def pyFloat : Scalar → Option ℚ
  | .str s => parseFloat s
  | .num q => some q
  | .bool b => some (if b then 1 else 0)
  | .null => none

/-- Python `int(value)` on a scalar: numbers truncate toward zero,
booleans map to 0/1, strings parse as integer literals, `None` raises. -/
def pyInt : Scalar → Option ℤ
  | .str s => parseIntStr s
  | .num q => some (ratTrunc q)
  | .bool b => some (if b then 1 else 0)
  | .null => none

/-- Python `==` between a scalar and the configured (string) sentinel at
source line 344: only equal strings compare equal; a number, boolean or
`None` is never `==` to a string. -/
def pyStrEq (v : Scalar) (s : String) : Bool :=
  match v with
  | .str t => t == s
  | _ => false

/-! ## The record transformer (source lines 226-365) -/

/-- Outcome of one field-extraction block of `transform_entity`. -/
inductive FieldResult where
  | skip
  | crash
  | ok (s : Scalar)
deriving DecidableEq

/-- Source lines 256-271 (and 273-288): the block for a mandatory field.
Missing key: skip.  A sequence of more than one element: skip.  A
sequence is otherwise unwrapped by `value[0]`, which raises `IndexError`
(`crash`) on an empty sequence; the unwrapped scalar is NOT re-checked
for falsiness.  A directly-held falsy scalar: skip. -/
def fetch_mandatory (entity : Entity) (prop : String) : FieldResult :=
  match lookupField entity prop with
  | none => .skip
  | some (.list xs) =>
    if xs.length > 1 then .skip
    else
      match xs with
      | [] => .crash
      | x :: _ => .ok x
  | some (.scalar s) => if pyFalsy s then .skip else .ok s

/-- Source lines 290-296 (and 298-304): the block for an optional field.
A missing key yields the configured default; a present value is never
checked for falsiness, only for multiplicity. -/
def fetch_optional (entity : Entity) (prop : String) (dflt : Scalar) :
    FieldResult :=
  match lookupField entity prop with
  | none => .ok dflt
  | some (.list xs) =>
    if xs.length > 1 then .skip
    else
      match xs with
      | [] => .crash
      | x :: _ => .ok x
  | some (.scalar s) => .ok s

/-- A value written into the output record: a value carried over from the
input, a computed float (latitude/longitude in degrees), or the combined
string `"<lat>, <lon>"` formatted from the two computed floats. -/
inductive OutValue where
  | orig (v : Value)
  | fnum (r : ℝ)
  | fstr (lat lon : ℝ)

/-- The input record viewed as an output record (before any write). -/
def liftEntity (e : Entity) : List (String × OutValue) :=
  e.map (fun p => (p.1, OutValue.orig p.2))

/-- Source line 360: `include_latlong.strip().lower() == "true"`. -/
def b_include_latlong (cfg : Config) : Bool :=
  pyLower (pyStrip cfg.include_latlong) == "true"

/-- Source lines 351-363: convert the engine result to degrees and write
it into the record under the configured output field names, plus the
optional combined field. -/
noncomputable def augment (cfg : Config) (entity : Entity) (latlon : ℝ × ℝ) :
    List (String × OutValue) :=
  let lat := rad_to_deg latlon.1
  let lon := rad_to_deg latlon.2
  let out1 := setField (liftEntity entity) cfg.lat_property (OutValue.fnum lat)
  let out2 := setField out1 cfg.long_property (OutValue.fnum lon)
  if b_include_latlong cfg then
    setField out2 cfg.latlong_property (OutValue.fstr lat lon)
  else out2

/-- Result of `transform_entity`: the augmented record, the original
record returned unchanged by a skip path, a raised `AssertionError`
(carrying the field kind named in the message and the offending value),
or a raised `IndexError` from unwrapping an empty sequence. -/
inductive Outcome where
  | ok (e : List (String × OutValue))
  | skipped (e : Entity)
  | assertionError (field : String) (value : Scalar)
  | indexError

/-- Source lines 226-365: the record transformer.  The four extraction
blocks run in source order (easting, northing, zone, hemisphere); then all
four values are stripped when textual; then easting and northing are
converted by `float`, the zone by `int`, each failure raising the
`AssertionError` of lines 320-342; the hemisphere boolean of line 344 is
Python `==` against the configured sentinel; finally the engine runs and
the record is augmented (lines 349-365). -/
noncomputable def transform_entity (cfg : Config) (entity : Entity) : Outcome :=
  match fetch_mandatory entity cfg.easting_property with
  | .skip => .skipped entity
  | .crash => .indexError
  | .ok easting_value =>
    match fetch_mandatory entity cfg.northing_property with
    | .skip => .skipped entity
    | .crash => .indexError
    | .ok northing_value =>
      match fetch_optional entity cfg.zone_property (.str cfg.zone_default) with
      | .skip => .skipped entity
      | .crash => .indexError
      | .ok zone_value =>
        match fetch_optional entity cfg.hemi_property (.str cfg.hemi_default) with
        | .skip => .skipped entity
        | .crash => .indexError
        | .ok hemi_value =>
          let easting_s := pyStripIfStr easting_value
          let northing_s := pyStripIfStr northing_value
          let zone_s := pyStripIfStr zone_value
          let hemi_s := pyStripIfStr hemi_value
          match pyFloat easting_s with
          | none => .assertionError "easting" easting_s
          | some ef =>
            match pyFloat northing_s with
            | none => .assertionError "northing" northing_s
            | some nf =>
              match pyInt zone_s with
              | none => .assertionError "zone" zone_s
              | some zi =>
                let hemi_bool := pyStrEq hemi_s cfg.hemi_northern_value
                .ok (augment cfg entity
                  (utm_xy_to_lat_lon (ef : ℝ) (nf : ℝ) (zi : ℝ) hemi_bool))

/-- The data-model invariant on records: a sequence-valued field is
non-empty. -/
def NoEmptySeq (e : Entity) : Prop := ∀ p ∈ e, p.2 ≠ Value.list []

instance instDecidableNoEmptySeq (e : Entity) : Decidable (NoEmptySeq e) :=
  inferInstanceAs (Decidable (∀ p ∈ e, p.2 ≠ Value.list []))

/-- Drop every field whose name is in `ks`, keeping the rest in order. -/
def dropKeys {α : Type} : List (String × α) → List String → List (String × α)
  | [], _ => []
  | p :: rest, ks =>
    if p.1 ∈ ks then dropKeys rest ks else p :: dropKeys rest ks

/-- The output field names `transform_entity` writes: latitude and
longitude, plus the combined field when that option is enabled. -/
def writtenKeys (cfg : Config) : List String :=
  if b_include_latlong cfg then
    [cfg.lat_property, cfg.long_property, cfg.latlong_property]
  else [cfg.lat_property, cfg.long_property]

/-- Spec-side definition: the flattening ratio `n = (a-b)/(a+b)` with the
claim's literal values `a = 6378137.0`, `b = 6356752.314`. -/
noncomputable def n_claim : ℝ :=
  (6378137.0 - 6356752.314) / (6378137.0 + 6356752.314)

/-- Spec-side definition: the series radius `α` as a fixed polynomial in
`n` (the claim leaves `α` to the code's formula). -/
noncomputable def alpha_claim : ℝ :=
  ((6378137.0 + 6356752.314) / 2) * (1 + n_claim ^ 2 / 4 + n_claim ^ 4 / 64)

/-- Concrete test record: a plain easting/northing pair. -/
def entC8 : Entity :=
  [("easting", Value.scalar (Scalar.num 500000)),
   ("northing", Value.scalar (Scalar.num 1))]

/-- Concrete test record: an extra passthrough field and a pre-existing
`lat` field that the transform must overwrite. -/
def entC9 : Entity :=
  [("id", Value.scalar (Scalar.str "x")),
   ("easting", Value.scalar (Scalar.num 500000)),
   ("northing", Value.scalar (Scalar.num 2)),
   ("lat", Value.scalar (Scalar.num 7))]

/-! ## Association-list lemmas -/

theorem lookupField_setField_self {α : Type} (l : List (String × α))
    (k : String) (v : α) : lookupField (setField l k v) k = some v := by
  induction l with
  | nil => simp [setField, lookupField]
  | cons p rest ih =>
    obtain ⟨k1, v1⟩ := p
    by_cases hk : (k1 == k) = true
    · simp [setField, hk, lookupField]
    · simp [setField, hk, lookupField, ih]

theorem lookupField_setField_ne {α : Type} (l : List (String × α))
    (k k1 : String) (v : α) (hne : k1 ≠ k) :
    lookupField (setField l k v) k1 = lookupField l k1 := by
  induction l with
  | nil =>
    simp only [setField, lookupField]
    rw [if_neg]
    simp [beq_iff_eq]
    exact fun hc => hne hc.symm
  | cons p rest ih =>
    obtain ⟨k2, v2⟩ := p
    by_cases hk : (k2 == k) = true
    · have hk2 : k2 = k := by simpa [beq_iff_eq] using hk
      subst hk2
      simp only [setField, beq_self_eq_true, if_true, lookupField]
      rw [if_neg, if_neg]
      · simp [beq_iff_eq]
        exact fun hc => hne hc.symm
      · simp [beq_iff_eq]
        exact fun hc => hne hc.symm
    · simp only [setField, hk, if_false, lookupField]
      by_cases hk1 : (k2 == k1) = true
      · simp [hk1]
      · simp [hk1, ih]

theorem dropKeys_setField {α : Type} (l : List (String × α)) (k : String)
    (v : α) (ks : List String) (hk : k ∈ ks) :
    dropKeys (setField l k v) ks = dropKeys l ks := by
  induction l with
  | nil => simp [setField, dropKeys, hk]
  | cons p rest ih =>
    obtain ⟨k1, v1⟩ := p
    by_cases h1 : (k1 == k) = true
    · have hk1 : k1 = k := by simpa [beq_iff_eq] using h1
      subst hk1
      simp [setField, dropKeys, hk]
    · by_cases hc : k1 ∈ ks
      · simp [setField, h1, dropKeys, hc, ih]
      · simp [setField, h1, dropKeys, hc, ih]

theorem dropKeys_liftEntity (e : Entity) (ks : List String) :
    dropKeys (liftEntity e) ks = liftEntity (dropKeys e ks) := by
  induction e with
  | nil => rfl
  | cons p rest ih =>
    obtain ⟨k1, v1⟩ := p
    by_cases hc : k1 ∈ ks
    · simpa [liftEntity, dropKeys, hc] using ih
    · simpa [liftEntity, dropKeys, hc] using ih

theorem lookupField_liftEntity (e : Entity) (k : String) :
    lookupField (liftEntity e) k = (lookupField e k).map OutValue.orig := by
  induction e with
  | nil => rfl
  | cons p rest ih =>
    obtain ⟨k1, v1⟩ := p
    by_cases hk : (k1 == k) = true
    · simp [liftEntity, lookupField, hk]
    · simpa [liftEntity, lookupField, hk] using ih

theorem lookupField_mem {α : Type} (l : List (String × α)) (k : String)
    (v : α) (h : lookupField l k = some v) : (k, v) ∈ l := by
  induction l with
  | nil => cases h
  | cons p rest ih =>
    obtain ⟨k1, v1⟩ := p
    by_cases hk : (k1 == k) = true
    · have hk1 : k1 = k := by simpa [beq_iff_eq] using hk
      subst hk1
      simp only [lookupField, beq_self_eq_true, if_true, Option.some.injEq] at h
      subst h
      exact List.mem_cons_self _ _
    · simp only [lookupField, hk, if_false] at h
      exact List.mem_cons_of_mem _ (ih h)

/-! ## Extraction-path lemmas -/

theorem fetch_mandatory_missing (e : Entity) (p : String)
    (h : lookupField e p = none) : fetch_mandatory e p = .skip := by
  simp [fetch_mandatory, h]

theorem fetch_mandatory_falsy (e : Entity) (p : String) (s : Scalar)
    (h : lookupField e p = some (.scalar s)) (hf : pyFalsy s = true) :
    fetch_mandatory e p = .skip := by
  simp [fetch_mandatory, h, hf]

theorem fetch_mandatory_multi (e : Entity) (p : String) (xs : List Scalar)
    (h : lookupField e p = some (.list xs)) (hl : 1 < xs.length) :
    fetch_mandatory e p = .skip := by
  simp [fetch_mandatory, h, hl]

theorem fetch_optional_multi (e : Entity) (p : String) (d : Scalar)
    (xs : List Scalar) (h : lookupField e p = some (.list xs))
    (hl : 1 < xs.length) : fetch_optional e p d = .skip := by
  simp [fetch_optional, h, hl]

theorem fetch_mandatory_crash_iff (e : Entity) (p : String) :
    fetch_mandatory e p = .crash ↔ lookupField e p = some (Value.list []) := by
  unfold fetch_mandatory
  cases hL : lookupField e p with
  | none => simp
  | some v =>
    cases v with
    | scalar s => cases hf : pyFalsy s <;> simp [hf]
    | list xs =>
      cases xs with
      | nil => simp
      | cons x rest =>
        cases rest with
        | nil => simp
        | cons y rest2 => simp [Nat.succ_lt_succ, Nat.zero_lt_succ]

theorem fetch_optional_crash_iff (e : Entity) (p : String) (d : Scalar) :
    fetch_optional e p d = .crash ↔ lookupField e p = some (Value.list []) := by
  unfold fetch_optional
  cases hL : lookupField e p with
  | none => simp
  | some v =>
    cases v with
    | scalar s => simp
    | list xs =>
      cases xs with
      | nil => simp
      | cons x rest =>
        cases rest with
        | nil => simp
        | cons y rest2 => simp [Nat.succ_lt_succ, Nat.zero_lt_succ]

theorem fetch_mandatory_no_crash (e : Entity) (p : String)
    (h : NoEmptySeq e) : fetch_mandatory e p ≠ .crash := by
  intro hc
  exact h _ (lookupField_mem e p _ ((fetch_mandatory_crash_iff e p).1 hc)) rfl

theorem fetch_optional_no_crash (e : Entity) (p : String) (d : Scalar)
    (h : NoEmptySeq e) : fetch_optional e p d ≠ .crash := by
  intro hc
  exact h _ (lookupField_mem e p _ ((fetch_optional_crash_iff e p d).1 hc)) rfl

/-! ## Control-flow lemmas for `transform_entity` -/

theorem transform_skip_easting (cfg : Config) (e : Entity)
    (h : fetch_mandatory e cfg.easting_property = .skip) :
    transform_entity cfg e = .skipped e := by
  unfold transform_entity
  rw [h]

theorem transform_crash_easting (cfg : Config) (e : Entity)
    (h : fetch_mandatory e cfg.easting_property = .crash) :
    transform_entity cfg e = .indexError := by
  unfold transform_entity
  rw [h]

theorem transform_skip_northing (cfg : Config) (e : Entity) (ev : Scalar)
    (hE : fetch_mandatory e cfg.easting_property = .ok ev)
    (h : fetch_mandatory e cfg.northing_property = .skip) :
    transform_entity cfg e = .skipped e := by
  unfold transform_entity
  rw [hE, h]

theorem transform_crash_northing (cfg : Config) (e : Entity) (ev : Scalar)
    (hE : fetch_mandatory e cfg.easting_property = .ok ev)
    (h : fetch_mandatory e cfg.northing_property = .crash) :
    transform_entity cfg e = .indexError := by
  unfold transform_entity
  rw [hE, h]

theorem transform_skip_zone (cfg : Config) (e : Entity) (ev nv : Scalar)
    (hE : fetch_mandatory e cfg.easting_property = .ok ev)
    (hN : fetch_mandatory e cfg.northing_property = .ok nv)
    (h : fetch_optional e cfg.zone_property (.str cfg.zone_default) = .skip) :
    transform_entity cfg e = .skipped e := by
  unfold transform_entity
  rw [hE, hN, h]

theorem transform_crash_zone (cfg : Config) (e : Entity) (ev nv : Scalar)
    (hE : fetch_mandatory e cfg.easting_property = .ok ev)
    (hN : fetch_mandatory e cfg.northing_property = .ok nv)
    (h : fetch_optional e cfg.zone_property (.str cfg.zone_default) = .crash) :
    transform_entity cfg e = .indexError := by
  unfold transform_entity
  rw [hE, hN, h]

theorem transform_skip_hemi (cfg : Config) (e : Entity) (ev nv zv : Scalar)
    (hE : fetch_mandatory e cfg.easting_property = .ok ev)
    (hN : fetch_mandatory e cfg.northing_property = .ok nv)
    (hZ : fetch_optional e cfg.zone_property (.str cfg.zone_default) = .ok zv)
    (h : fetch_optional e cfg.hemi_property (.str cfg.hemi_default) = .skip) :
    transform_entity cfg e = .skipped e := by
  unfold transform_entity
  rw [hE, hN, hZ, h]

theorem transform_crash_hemi (cfg : Config) (e : Entity) (ev nv zv : Scalar)
    (hE : fetch_mandatory e cfg.easting_property = .ok ev)
    (hN : fetch_mandatory e cfg.northing_property = .ok nv)
    (hZ : fetch_optional e cfg.zone_property (.str cfg.zone_default) = .ok zv)
    (h : fetch_optional e cfg.hemi_property (.str cfg.hemi_default) = .crash) :
    transform_entity cfg e = .indexError := by
  unfold transform_entity
  rw [hE, hN, hZ, h]

theorem transform_ok_forward (cfg : Config) (e : Entity) (ev nv zv hv : Scalar)
    (ef nf : ℚ) (zi : ℤ)
    (hE : fetch_mandatory e cfg.easting_property = .ok ev)
    (hN : fetch_mandatory e cfg.northing_property = .ok nv)
    (hZ : fetch_optional e cfg.zone_property (.str cfg.zone_default) = .ok zv)
    (hH : fetch_optional e cfg.hemi_property (.str cfg.hemi_default) = .ok hv)
    (hf : pyFloat (pyStripIfStr ev) = some ef)
    (hn : pyFloat (pyStripIfStr nv) = some nf)
    (hz : pyInt (pyStripIfStr zv) = some zi) :
    transform_entity cfg e = .ok (augment cfg e
      (utm_xy_to_lat_lon (ef : ℝ) (nf : ℝ) (zi : ℝ)
        (pyStrEq (pyStripIfStr hv) cfg.hemi_northern_value))) := by
  unfold transform_entity
  rw [hE, hN, hZ, hH]
  dsimp only
  rw [hf, hn, hz]

theorem transform_error_easting_forward (cfg : Config) (e : Entity)
    (ev nv zv hv : Scalar)
    (hE : fetch_mandatory e cfg.easting_property = .ok ev)
    (hN : fetch_mandatory e cfg.northing_property = .ok nv)
    (hZ : fetch_optional e cfg.zone_property (.str cfg.zone_default) = .ok zv)
    (hH : fetch_optional e cfg.hemi_property (.str cfg.hemi_default) = .ok hv)
    (hf : pyFloat (pyStripIfStr ev) = none) :
    transform_entity cfg e = .assertionError "easting" (pyStripIfStr ev) := by
  unfold transform_entity
  rw [hE, hN, hZ, hH]
  dsimp only
  rw [hf]

theorem transform_error_northing_forward (cfg : Config) (e : Entity)
    (ev nv zv hv : Scalar) (ef : ℚ)
    (hE : fetch_mandatory e cfg.easting_property = .ok ev)
    (hN : fetch_mandatory e cfg.northing_property = .ok nv)
    (hZ : fetch_optional e cfg.zone_property (.str cfg.zone_default) = .ok zv)
    (hH : fetch_optional e cfg.hemi_property (.str cfg.hemi_default) = .ok hv)
    (hf : pyFloat (pyStripIfStr ev) = some ef)
    (hn : pyFloat (pyStripIfStr nv) = none) :
    transform_entity cfg e = .assertionError "northing" (pyStripIfStr nv) := by
  unfold transform_entity
  rw [hE, hN, hZ, hH]
  dsimp only
  rw [hf, hn]

theorem transform_error_zone_forward (cfg : Config) (e : Entity)
    (ev nv zv hv : Scalar) (ef nf : ℚ)
    (hE : fetch_mandatory e cfg.easting_property = .ok ev)
    (hN : fetch_mandatory e cfg.northing_property = .ok nv)
    (hZ : fetch_optional e cfg.zone_property (.str cfg.zone_default) = .ok zv)
    (hH : fetch_optional e cfg.hemi_property (.str cfg.hemi_default) = .ok hv)
    (hf : pyFloat (pyStripIfStr ev) = some ef)
    (hn : pyFloat (pyStripIfStr nv) = some nf)
    (hz : pyInt (pyStripIfStr zv) = none) :
    transform_entity cfg e = .assertionError "zone" (pyStripIfStr zv) := by
  unfold transform_entity
  rw [hE, hN, hZ, hH]
  dsimp only
  rw [hf, hn, hz]

theorem transform_ok_inversion (cfg : Config) (e : Entity)
    (out : List (String × OutValue)) (h : transform_entity cfg e = .ok out) :
    ∃ ev nv zv hv ef nf zi,
      fetch_mandatory e cfg.easting_property = .ok ev ∧
      fetch_mandatory e cfg.northing_property = .ok nv ∧
      fetch_optional e cfg.zone_property (.str cfg.zone_default) = .ok zv ∧
      fetch_optional e cfg.hemi_property (.str cfg.hemi_default) = .ok hv ∧
      pyFloat (pyStripIfStr ev) = some ef ∧
      pyFloat (pyStripIfStr nv) = some nf ∧
      pyInt (pyStripIfStr zv) = some zi ∧
      out = augment cfg e (utm_xy_to_lat_lon (ef : ℝ) (nf : ℝ) (zi : ℝ)
        (pyStrEq (pyStripIfStr hv) cfg.hemi_northern_value)) := by
  unfold transform_entity at h
  split at h
  · exact Outcome.noConfusion h
  · exact Outcome.noConfusion h
  next ev hEv =>
    split at h
    · exact Outcome.noConfusion h
    · exact Outcome.noConfusion h
    next nv hNv =>
      split at h
      · exact Outcome.noConfusion h
      · exact Outcome.noConfusion h
      next zv hZv =>
        split at h
        · exact Outcome.noConfusion h
        · exact Outcome.noConfusion h
        next hv hHv =>
          dsimp only at h
          split at h
          · exact Outcome.noConfusion h
          next ef hEf =>
            split at h
            · exact Outcome.noConfusion h
            next nf hNf =>
              split at h
              · exact Outcome.noConfusion h
              next zi hZi =>
                refine ⟨ev, nv, zv, hv, ef, nf, zi, hEv, hNv, hZv, hHv,
                  hEf, hNf, hZi, ?_⟩
                exact (Outcome.ok.inj h).symm

theorem transform_error_inversion (cfg : Config) (e : Entity)
    (f : String) (v : Scalar)
    (h : transform_entity cfg e = .assertionError f v) :
    ∃ ev nv zv hv,
      fetch_mandatory e cfg.easting_property = .ok ev ∧
      fetch_mandatory e cfg.northing_property = .ok nv ∧
      fetch_optional e cfg.zone_property (.str cfg.zone_default) = .ok zv ∧
      fetch_optional e cfg.hemi_property (.str cfg.hemi_default) = .ok hv ∧
      (pyFloat (pyStripIfStr ev) = none ∨ pyFloat (pyStripIfStr nv) = none ∨
       pyInt (pyStripIfStr zv) = none) := by
  unfold transform_entity at h
  split at h
  · exact Outcome.noConfusion h
  · exact Outcome.noConfusion h
  next ev hEv =>
    split at h
    · exact Outcome.noConfusion h
    · exact Outcome.noConfusion h
    next nv hNv =>
      split at h
      · exact Outcome.noConfusion h
      · exact Outcome.noConfusion h
      next zv hZv =>
        split at h
        · exact Outcome.noConfusion h
        · exact Outcome.noConfusion h
        next hv hHv =>
          dsimp only at h
          split at h
          next hEf =>
            exact ⟨ev, nv, zv, hv, hEv, hNv, hZv, hHv, Or.inl hEf⟩
          next ef hEf =>
            split at h
            next hNf =>
              exact ⟨ev, nv, zv, hv, hEv, hNv, hZv, hHv, Or.inr (Or.inl hNf)⟩
            next nf hNf =>
              split at h
              next hZi =>
                exact ⟨ev, nv, zv, hv, hEv, hNv, hZv, hHv,
                  Or.inr (Or.inr hZi)⟩
              next zi hZi => exact Outcome.noConfusion h

theorem transform_indexError_inversion (cfg : Config) (e : Entity)
    (h : transform_entity cfg e = .indexError) :
    fetch_mandatory e cfg.easting_property = .crash ∨
    fetch_mandatory e cfg.northing_property = .crash ∨
    fetch_optional e cfg.zone_property (.str cfg.zone_default) = .crash ∨
    fetch_optional e cfg.hemi_property (.str cfg.hemi_default) = .crash := by
  unfold transform_entity at h
  split at h
  · exact Outcome.noConfusion h
  next hE => exact Or.inl hE
  next ev hEv =>
    split at h
    · exact Outcome.noConfusion h
    next hN => exact Or.inr (Or.inl hN)
    next nv hNv =>
      split at h
      · exact Outcome.noConfusion h
      next hZ => exact Or.inr (Or.inr (Or.inl hZ))
      next zv hZv =>
        split at h
        · exact Outcome.noConfusion h
        next hH => exact Or.inr (Or.inr (Or.inr hH))
        next hv hHv =>
          dsimp only at h
          split at h
          · exact Outcome.noConfusion h
          next ef hEf =>
            split at h
            · exact Outcome.noConfusion h
            next nf hNf =>
              split at h
              · exact Outcome.noConfusion h
              next zi hZi => exact Outcome.noConfusion h

theorem augment_frame (cfg : Config) (e : Entity) (latlon : ℝ × ℝ)
    (h1 : cfg.lat_property ≠ cfg.long_property)
    (h2 : b_include_latlong cfg = true →
      cfg.latlong_property ≠ cfg.lat_property ∧
      cfg.latlong_property ≠ cfg.long_property) :
    (∀ k, k ∉ writtenKeys cfg →
      lookupField (augment cfg e latlon) k =
        (lookupField e k).map OutValue.orig) ∧
    dropKeys (augment cfg e latlon) (writtenKeys cfg) =
      liftEntity (dropKeys e (writtenKeys cfg)) ∧
    ∃ lat lon : ℝ,
      lookupField (augment cfg e latlon) cfg.lat_property =
        some (OutValue.fnum lat) ∧
      lookupField (augment cfg e latlon) cfg.long_property =
        some (OutValue.fnum lon) ∧
      (b_include_latlong cfg = true →
        lookupField (augment cfg e latlon) cfg.latlong_property =
          some (OutValue.fstr lat lon)) := by
  unfold augment writtenKeys
  cases hb : b_include_latlong cfg
  · simp only [Bool.false_eq_true, if_false]
    refine ⟨?_, ?_, ?_⟩
    · intro k hk
      have hk1 : k ≠ cfg.lat_property := fun hc => hk (by simp [hc])
      have hk2 : k ≠ cfg.long_property := fun hc => hk (by simp [hc])
      rw [lookupField_setField_ne _ _ _ _ hk2,
        lookupField_setField_ne _ _ _ _ hk1, lookupField_liftEntity]
    · rw [dropKeys_setField _ _ _ _ (by simp),
        dropKeys_setField _ _ _ _ (by simp), dropKeys_liftEntity]
    · refine ⟨rad_to_deg latlon.1, rad_to_deg latlon.2, ?_, ?_, ?_⟩
      · rw [lookupField_setField_ne _ _ _ _ h1, lookupField_setField_self]
      · rw [lookupField_setField_self]
      · intro hc
        exact absurd hc (by simp)
  · obtain ⟨hd1, hd2⟩ := h2 hb
    simp only [if_true]
    refine ⟨?_, ?_, ?_⟩
    · intro k hk
      have hk1 : k ≠ cfg.lat_property := fun hc => hk (by simp [hc])
      have hk2 : k ≠ cfg.long_property := fun hc => hk (by simp [hc])
      have hk3 : k ≠ cfg.latlong_property := fun hc => hk (by simp [hc])
      rw [lookupField_setField_ne _ _ _ _ hk3,
        lookupField_setField_ne _ _ _ _ hk2,
        lookupField_setField_ne _ _ _ _ hk1, lookupField_liftEntity]
    · rw [dropKeys_setField _ _ _ _ (by simp),
        dropKeys_setField _ _ _ _ (by simp),
        dropKeys_setField _ _ _ _ (by simp), dropKeys_liftEntity]
    · refine ⟨rad_to_deg latlon.1, rad_to_deg latlon.2, ?_, ?_, ?_⟩
      · rw [lookupField_setField_ne _ _ _ _ (Ne.symm hd1),
          lookupField_setField_ne _ _ _ _ h1, lookupField_setField_self]
      · rw [lookupField_setField_ne _ _ _ _ (Ne.symm hd2),
          lookupField_setField_self]
      · intro hc
        rw [lookupField_setField_self]

/-! ## Engine theorems -/

/-- Claim C1: for every easting `x`, northing `y`, zone `z` and hemisphere
flag, the transform engine feeds the series step the scaled easting
`(x - 500000) / 0.9996`, the scaled northing `(y - 10000000) / 0.9996`
when southern and `y / 0.9996` when northern, and the central meridian
`(z * 6 - 183)` degrees converted to radians, with no range check on
`z` (the equation holds for every real `z`). -/
theorem claim1_input_scaling (x y z : ℝ) (hemi : Bool) :
    utm_xy_to_lat_lon x y z hemi =
      map_xy_to_lat_lon ((x - 500000) / 0.9996)
        (if hemi then y / 0.9996 else (y - 10000000) / 0.9996)
        (deg_to_rad (z * 6 - 183)) := by
  have hx : (x - 500000.0) / UTMScaleFactor = (x - 500000) / 0.9996 := by
    unfold UTMScaleFactor; norm_num
  have hyS : (y - 10000000.0) / UTMScaleFactor = (y - 10000000) / 0.9996 := by
    unfold UTMScaleFactor; norm_num
  have hyN : y / UTMScaleFactor = y / 0.9996 := by
    unfold UTMScaleFactor
    rfl
  have hz : utm_central_meridian z = deg_to_rad (z * 6 - 183) := by
    unfold utm_central_meridian; congr 1; ring
  cases hemi with
  | false =>
    show map_xy_to_lat_lon ((x - 500000.0) / UTMScaleFactor)
        ((y - 10000000.0) / UTMScaleFactor) (utm_central_meridian z) =
      map_xy_to_lat_lon ((x - 500000) / 0.9996) ((y - 10000000) / 0.9996)
        (deg_to_rad (z * 6 - 183))
    rw [hx, hyS, hz]
  | true =>
    show map_xy_to_lat_lon ((x - 500000.0) / UTMScaleFactor)
        (y / UTMScaleFactor) (utm_central_meridian z) =
      map_xy_to_lat_lon ((x - 500000) / 0.9996) (y / 0.9996)
        (deg_to_rad (z * 6 - 183))
    rw [hx, hyN, hz]

/-- Claim C2: the footpoint-latitude function computes
`n = (a-b)/(a+b)` with `a = 6378137.0`, `b = 6356752.314` and returns
`y/α + β·sin(2y/α) + γ·sin(4y/α) + δ·sin(6y/α) + ε·sin(8y/α)` with exactly
the coefficient polynomials `β = 3n/2 − 27n³/32 + 269n⁵/512`,
`γ = 21n²/16 − 55n⁴/32`, `δ = 151n³/96 − 417n⁵/128`, `ε = 1097n⁴/512`. -/
theorem claim2_footpoint_series (y : ℝ) :
    footpoint_laititude y =
      y / alpha_claim
      + (3 * n_claim / 2 - 27 * n_claim ^ 3 / 32 + 269 * n_claim ^ 5 / 512) *
          Real.sin (2 * y / alpha_claim)
      + (21 * n_claim ^ 2 / 16 - 55 * n_claim ^ 4 / 32) *
          Real.sin (4 * y / alpha_claim)
      + (151 * n_claim ^ 3 / 96 - 417 * n_claim ^ 5 / 128) *
          Real.sin (6 * y / alpha_claim)
      + (1097 * n_claim ^ 4 / 512) * Real.sin (8 * y / alpha_claim) := by
  unfold footpoint_laititude alpha_claim n_claim sm_a sm_b
  ring_nf

/-- The footpoint series at scaled northing `0` is `0`. -/
theorem footpoint_laititude_zero : footpoint_laititude 0 = 0 := by
  simp [footpoint_laititude]

/-- The inverse series at `x = 0`, `y = 0` returns latitude `0` and
longitude equal to the central meridian. -/
theorem map_xy_to_lat_lon_zero (lambda0 : ℝ) :
    map_xy_to_lat_lon 0 0 lambda0 = (0, lambda0) := by
  simp [map_xy_to_lat_lon, footpoint_laititude_zero, Real.tan_zero]

/-- Claim C3: for every zone `z`, the engine applied to easting `500000`,
northing `0`, northern hemisphere yields latitude `0` degrees and
longitude `(z * 6 - 183)` degrees (the zone's central meridian); in
particular for `z = 32` the longitude is `9` degrees. -/
theorem claim3_central_meridian_roundtrip (z : ℝ) :
    (rad_to_deg (utm_xy_to_lat_lon 500000 0 z true).1 = 0 ∧
     rad_to_deg (utm_xy_to_lat_lon 500000 0 z true).2 = z * 6 - 183) ∧
    rad_to_deg (utm_xy_to_lat_lon 500000 0 32 true).2 = 9 := by
  have hpi : pi ≠ 0 := by unfold pi; norm_num
  have hmain : ∀ w : ℝ, utm_xy_to_lat_lon 500000 0 w true =
      (0, deg_to_rad (-183.0 + w * 6.0)) := by
    intro w
    show map_xy_to_lat_lon ((500000 - 500000.0) / UTMScaleFactor)
        ((0 : ℝ) / UTMScaleFactor) (utm_central_meridian w) = _
    have h5 : ((500000 : ℝ) - 500000.0) / UTMScaleFactor = 0 := by
      norm_num [UTMScaleFactor]
    rw [h5, zero_div, map_xy_to_lat_lon_zero]
    rfl
  have hlat : ∀ w : ℝ, rad_to_deg (utm_xy_to_lat_lon 500000 0 w true).1 = 0 := by
    intro w
    rw [hmain w]
    simp [rad_to_deg]
  have hlon : ∀ w : ℝ,
      rad_to_deg (utm_xy_to_lat_lon 500000 0 w true).2 = w * 6 - 183 := by
    intro w
    rw [hmain w]
    unfold rad_to_deg deg_to_rad
    field_simp
    ring
  refine ⟨⟨hlat z, hlon z⟩, ?_⟩
  rw [hlon 32]
  norm_num

/-! ## Record-transformer theorems -/

/-- Counterexample to claim C4 as stated: in the record
`[("easting", "abc")]` the easting field is present, non-null, not a
sequence, and its value fails to parse as a float, yet the transformer
does not raise: the missing northing field is checked first and the
record is skipped (returned unchanged). -/
theorem claim4_counterexample :
    lookupField [("easting", Value.scalar (Scalar.str "abc"))] "easting" =
      some (Value.scalar (Scalar.str "abc")) ∧
    pyFloat (pyStripIfStr (Scalar.str "abc")) = none ∧
    transform_entity defaultConfig [("easting", Value.scalar (Scalar.str "abc"))] =
      .skipped [("easting", Value.scalar (Scalar.str "abc"))] :=
  ⟨rfl, rfl,
    transform_skip_northing defaultConfig _ (Scalar.str "abc")
      (by decide) (by decide)⟩

/-- Claim C4 (amended): provided all four extraction blocks succeed
(mandatory fields present as non-falsy scalars or unwrapped singleton
sequences, optional fields not ambiguous), a record raises the fatal
`AssertionError` exactly when the (trimmed, if textual) easting or
northing value fails to parse as a float or the zone value fails to
parse as an integer; an extraction failure in a later field preempts
the fatal error with a skip.  The record is never augmented on this
path, and whenever processing completes the extraction blocks, the
parse failures are the sole fatal outcome. -/
theorem claim4_fatal_iff (cfg : Config) (e : Entity) :
    (∃ f v, transform_entity cfg e = .assertionError f v) ↔
      (∃ ev nv zv hv,
        fetch_mandatory e cfg.easting_property = .ok ev ∧
        fetch_mandatory e cfg.northing_property = .ok nv ∧
        fetch_optional e cfg.zone_property (.str cfg.zone_default) = .ok zv ∧
        fetch_optional e cfg.hemi_property (.str cfg.hemi_default) = .ok hv ∧
        (pyFloat (pyStripIfStr ev) = none ∨ pyFloat (pyStripIfStr nv) = none ∨
         pyInt (pyStripIfStr zv) = none)) := by
  constructor
  · rintro ⟨f, v, h⟩
    exact transform_error_inversion cfg e f v h
  · rintro ⟨ev, nv, zv, hv, hE, hN, hZ, hH, hfail⟩
    cases hf : pyFloat (pyStripIfStr ev) with
    | none =>
      exact ⟨_, _, transform_error_easting_forward cfg e ev nv zv hv hE hN hZ hH hf⟩
    | some ef =>
      cases hn : pyFloat (pyStripIfStr nv) with
      | none =>
        exact ⟨_, _, transform_error_northing_forward cfg e ev nv zv hv ef
          hE hN hZ hH hf hn⟩
      | some nf =>
        cases hz : pyInt (pyStripIfStr zv) with
        | none =>
          exact ⟨_, _, transform_error_zone_forward cfg e ev nv zv hv ef nf
            hE hN hZ hH hf hn hz⟩
        | some zi =>
          exfalso
          rcases hfail with h1 | h1 | h1
          · rw [h1] at hf; exact Option.noConfusion hf
          · rw [h1] at hn; exact Option.noConfusion hn
          · rw [h1] at hz; exact Option.noConfusion hz

/-- Witness for claim C4 (amended) at a concrete record whose easting is
the unparseable text `"abc"` while every other extraction step succeeds:
the fatal error is raised. -/
theorem claim4_witness :
    ∃ f v, transform_entity defaultConfig
      [("easting", Value.scalar (Scalar.str "abc")),
       ("northing", Value.scalar (Scalar.num 1))] = .assertionError f v :=
  (claim4_fatal_iff defaultConfig _).mpr
    ⟨Scalar.str "abc", Scalar.num 1, Scalar.str "32", Scalar.str "0",
     by decide, by decide, by decide, by decide, Or.inl (by decide)⟩

/-- Counterexample to claim C5 as stated: in the record
`[("easting", [null]), ("northing", 1)]` the easting field holds a
one-element sequence whose scalar is null (falsy), yet the transformer
does not skip: the singleton is unwrapped without a falsiness check and
`float(None)` raises the fatal error. -/
theorem claim5_counterexample :
    lookupField
      [("easting", Value.list [Scalar.null]),
       ("northing", Value.scalar (Scalar.num 1))] "easting" =
      some (Value.list [Scalar.null]) ∧
    pyFalsy Scalar.null = true ∧
    transform_entity defaultConfig
      [("easting", Value.list [Scalar.null]),
       ("northing", Value.scalar (Scalar.num 1))] =
      .assertionError "easting" Scalar.null :=
  ⟨rfl, rfl,
    transform_error_easting_forward defaultConfig _ Scalar.null
      (Scalar.num 1) (Scalar.str "32") (Scalar.str "0")
      (by decide) (by decide) (by decide) (by decide) rfl⟩

/-- Claim C5 (amended): a mandatory (easting or northing) field holding an
empty/null/falsy scalar directly yields a skip and the record is returned
unmodified; a one-element sequence, by contrast, is unwrapped to its
scalar without any falsiness check and proceeds to conversion.  The
northing half assumes the data-model invariant that no field holds an
empty sequence. -/
theorem claim5_direct_falsy_skip (cfg : Config) (e : Entity) (s : Scalar) :
    (lookupField e cfg.easting_property = some (.scalar s) → pyFalsy s = true →
      transform_entity cfg e = .skipped e) ∧
    (NoEmptySeq e → lookupField e cfg.northing_property = some (.scalar s) →
      pyFalsy s = true → transform_entity cfg e = .skipped e) := by
  constructor
  · intro hL hf
    exact transform_skip_easting cfg e (fetch_mandatory_falsy e _ s hL hf)
  · intro hns hL hf
    cases hE : fetch_mandatory e cfg.easting_property with
    | skip => exact transform_skip_easting cfg e hE
    | crash => exact absurd hE (fetch_mandatory_no_crash e _ hns)
    | ok ev =>
      exact transform_skip_northing cfg e ev hE
        (fetch_mandatory_falsy e _ s hL hf)

/-- Witness for claim C5 (amended) at concrete records: an empty-string
easting skips, and a zero northing skips. -/
theorem claim5_witness :
    transform_entity defaultConfig [("easting", Value.scalar (Scalar.str ""))] =
      .skipped [("easting", Value.scalar (Scalar.str ""))] ∧
    transform_entity defaultConfig
      [("easting", Value.scalar (Scalar.num 5)),
       ("northing", Value.scalar (Scalar.num 0))] =
      .skipped [("easting", Value.scalar (Scalar.num 5)),
                ("northing", Value.scalar (Scalar.num 0))] :=
  ⟨(claim5_direct_falsy_skip defaultConfig _ (Scalar.str "")).1 rfl rfl,
   (claim5_direct_falsy_skip defaultConfig _ (Scalar.num 0)).2 (by decide)
     (by decide) (by decide)⟩

/-- Claim C6: a record from which the easting field (or the northing
field) is absent is returned unchanged, with no error raised and no
field added (under the data-model invariant that sequence-valued fields
are non-empty). -/
theorem claim6_missing_skip (cfg : Config) (e : Entity) (h : NoEmptySeq e) :
    (lookupField e cfg.easting_property = none →
      transform_entity cfg e = .skipped e) ∧
    (lookupField e cfg.northing_property = none →
      transform_entity cfg e = .skipped e) := by
  constructor
  · intro hL
    exact transform_skip_easting cfg e (fetch_mandatory_missing e _ hL)
  · intro hL
    cases hE : fetch_mandatory e cfg.easting_property with
    | skip => exact transform_skip_easting cfg e hE
    | crash => exact absurd hE (fetch_mandatory_no_crash e _ h)
    | ok ev =>
      exact transform_skip_northing cfg e ev hE
        (fetch_mandatory_missing e _ hL)

/-- Witness for claim C6 at concrete records: the empty record, and a
record holding only an easting. -/
theorem claim6_witness :
    transform_entity defaultConfig [] = .skipped [] ∧
    transform_entity defaultConfig [("easting", Value.scalar (Scalar.num 1))] =
      .skipped [("easting", Value.scalar (Scalar.num 1))] :=
  ⟨(claim6_missing_skip defaultConfig [] (by decide)).1 rfl,
   (claim6_missing_skip defaultConfig _ (by decide)).2 rfl⟩

/-- Claim C7: a record in which the easting, northing, zone or
hemisphere field holds a sequence of more than one element is returned
unchanged with no error (under the data-model invariant that
sequence-valued fields are non-empty). -/
theorem claim7_multi_skip (cfg : Config) (e : Entity) (h : NoEmptySeq e)
    (xs : List Scalar) :
    (lookupField e cfg.easting_property = some (.list xs) → 1 < xs.length →
      transform_entity cfg e = .skipped e) ∧
    (lookupField e cfg.northing_property = some (.list xs) → 1 < xs.length →
      transform_entity cfg e = .skipped e) ∧
    (lookupField e cfg.zone_property = some (.list xs) → 1 < xs.length →
      transform_entity cfg e = .skipped e) ∧
    (lookupField e cfg.hemi_property = some (.list xs) → 1 < xs.length →
      transform_entity cfg e = .skipped e) := by
  refine ⟨?_, ?_, ?_, ?_⟩
  · intro hL hlen
    exact transform_skip_easting cfg e (fetch_mandatory_multi e _ xs hL hlen)
  · intro hL hlen
    cases hE : fetch_mandatory e cfg.easting_property with
    | skip => exact transform_skip_easting cfg e hE
    | crash => exact absurd hE (fetch_mandatory_no_crash e _ h)
    | ok ev =>
      exact transform_skip_northing cfg e ev hE
        (fetch_mandatory_multi e _ xs hL hlen)
  · intro hL hlen
    cases hE : fetch_mandatory e cfg.easting_property with
    | skip => exact transform_skip_easting cfg e hE
    | crash => exact absurd hE (fetch_mandatory_no_crash e _ h)
    | ok ev =>
      cases hN : fetch_mandatory e cfg.northing_property with
      | skip => exact transform_skip_northing cfg e ev hE hN
      | crash => exact absurd hN (fetch_mandatory_no_crash e _ h)
      | ok nv =>
        exact transform_skip_zone cfg e ev nv hE hN
          (fetch_optional_multi e _ _ xs hL hlen)
  · intro hL hlen
    cases hE : fetch_mandatory e cfg.easting_property with
    | skip => exact transform_skip_easting cfg e hE
    | crash => exact absurd hE (fetch_mandatory_no_crash e _ h)
    | ok ev =>
      cases hN : fetch_mandatory e cfg.northing_property with
      | skip => exact transform_skip_northing cfg e ev hE hN
      | crash => exact absurd hN (fetch_mandatory_no_crash e _ h)
      | ok nv =>
        cases hZ : fetch_optional e cfg.zone_property (.str cfg.zone_default) with
        | skip => exact transform_skip_zone cfg e ev nv hE hN hZ
        | crash => exact absurd hZ (fetch_optional_no_crash e _ _ h)
        | ok zv =>
          exact transform_skip_hemi cfg e ev nv zv hE hN hZ
            (fetch_optional_multi e _ _ xs hL hlen)

/-- Witness for claim C7 at concrete records: a two-element easting
sequence, and a two-element hemisphere sequence. -/
theorem claim7_witness :
    transform_entity defaultConfig
      [("easting", Value.list [Scalar.num 1, Scalar.num 2])] =
      .skipped [("easting", Value.list [Scalar.num 1, Scalar.num 2])] ∧
    transform_entity defaultConfig
      [("easting", Value.scalar (Scalar.num 1)),
       ("northing", Value.scalar (Scalar.num 2)),
       ("hemi", Value.list [Scalar.str "0", Scalar.str "1"])] =
      .skipped [("easting", Value.scalar (Scalar.num 1)),
                ("northing", Value.scalar (Scalar.num 2)),
                ("hemi", Value.list [Scalar.str "0", Scalar.str "1"])] :=
  ⟨(claim7_multi_skip defaultConfig _ (by decide) _).1 rfl (by decide),
   (claim7_multi_skip defaultConfig _ (by decide) _).2.2.2 rfl (by decide)⟩

/-- Counterexample to claim C10 as stated: in the record
`[("zone", [])]` the zone field holds an empty sequence, yet no
out-of-bounds access happens: the missing easting field is checked
first and the record is skipped (an outcome the claim excludes). -/
theorem claim10_counterexample :
    lookupField [("zone", Value.list [])] "zone" = some (Value.list []) ∧
    transform_entity defaultConfig [("zone", Value.list [])] =
      .skipped [("zone", Value.list [])] :=
  ⟨rfl, transform_skip_easting defaultConfig _ (by decide)⟩

/-- Claim C10 (amended): when one of the four fields holds an empty
sequence and no earlier field's policy skips the record first, the
transformer performs the out-of-bounds unwrapping access (`IndexError`),
an outcome that is neither a skip nor the fatal conversion error; and
sequence unwrapping is safe exactly under the data-model precondition
that every sequence-valued field is non-empty. -/
theorem claim10_empty_seq (cfg : Config) (e : Entity) :
    (lookupField e cfg.easting_property = some (Value.list []) →
      transform_entity cfg e = .indexError) ∧
    (fetch_mandatory e cfg.easting_property ≠ .skip →
      lookupField e cfg.northing_property = some (Value.list []) →
      transform_entity cfg e = .indexError) ∧
    (fetch_mandatory e cfg.easting_property ≠ .skip →
      fetch_mandatory e cfg.northing_property ≠ .skip →
      lookupField e cfg.zone_property = some (Value.list []) →
      transform_entity cfg e = .indexError) ∧
    (fetch_mandatory e cfg.easting_property ≠ .skip →
      fetch_mandatory e cfg.northing_property ≠ .skip →
      fetch_optional e cfg.zone_property (.str cfg.zone_default) ≠ .skip →
      lookupField e cfg.hemi_property = some (Value.list []) →
      transform_entity cfg e = .indexError) ∧
    (NoEmptySeq e → transform_entity cfg e ≠ .indexError) := by
  refine ⟨?_, ?_, ?_, ?_, ?_⟩
  · intro hL
    exact transform_crash_easting cfg e ((fetch_mandatory_crash_iff e _).2 hL)
  · intro hne hL
    cases hE : fetch_mandatory e cfg.easting_property with
    | skip => exact absurd hE hne
    | crash => exact transform_crash_easting cfg e hE
    | ok ev =>
      exact transform_crash_northing cfg e ev hE
        ((fetch_mandatory_crash_iff e _).2 hL)
  · intro hne1 hne2 hL
    cases hE : fetch_mandatory e cfg.easting_property with
    | skip => exact absurd hE hne1
    | crash => exact transform_crash_easting cfg e hE
    | ok ev =>
      cases hN : fetch_mandatory e cfg.northing_property with
      | skip => exact absurd hN hne2
      | crash => exact transform_crash_northing cfg e ev hE hN
      | ok nv =>
        exact transform_crash_zone cfg e ev nv hE hN
          ((fetch_optional_crash_iff e _ _).2 hL)
  · intro hne1 hne2 hne3 hL
    cases hE : fetch_mandatory e cfg.easting_property with
    | skip => exact absurd hE hne1
    | crash => exact transform_crash_easting cfg e hE
    | ok ev =>
      cases hN : fetch_mandatory e cfg.northing_property with
      | skip => exact absurd hN hne2
      | crash => exact transform_crash_northing cfg e ev hE hN
      | ok nv =>
        cases hZ : fetch_optional e cfg.zone_property (.str cfg.zone_default) with
        | skip => exact absurd hZ hne3
        | crash => exact transform_crash_zone cfg e ev nv hE hN hZ
        | ok zv =>
          exact transform_crash_hemi cfg e ev nv zv hE hN hZ
            ((fetch_optional_crash_iff e _ _).2 hL)
  · intro hns hc
    rcases transform_indexError_inversion cfg e hc with h1 | h1 | h1 | h1
    · exact fetch_mandatory_no_crash e _ hns h1
    · exact fetch_mandatory_no_crash e _ hns h1
    · exact fetch_optional_no_crash e _ _ hns h1
    · exact fetch_optional_no_crash e _ _ hns h1

/-- Witness for claim C10 (amended) at concrete records: each of the
four empty-sequence positions crashes when reached, and a well-formed
record does not crash. -/
theorem claim10_witness :
    transform_entity defaultConfig [("easting", Value.list [])] = .indexError ∧
    transform_entity defaultConfig
      [("easting", Value.scalar (Scalar.num 1)), ("northing", Value.list [])] =
      .indexError ∧
    transform_entity defaultConfig
      [("easting", Value.scalar (Scalar.num 1)),
       ("northing", Value.scalar (Scalar.num 2)), ("zone", Value.list [])] =
      .indexError ∧
    transform_entity defaultConfig
      [("easting", Value.scalar (Scalar.num 1)),
       ("northing", Value.scalar (Scalar.num 2)), ("hemi", Value.list [])] =
      .indexError ∧
    transform_entity defaultConfig [("easting", Value.scalar (Scalar.num 1))] ≠
      .indexError :=
  ⟨(claim10_empty_seq defaultConfig _).1 rfl,
   (claim10_empty_seq defaultConfig _).2.1 (by decide) rfl,
   (claim10_empty_seq defaultConfig _).2.2.1 (by decide) (by decide) rfl,
   (claim10_empty_seq defaultConfig _).2.2.2.1 (by decide) (by decide)
     (by decide) rfl,
   (claim10_empty_seq defaultConfig _).2.2.2.2 (by decide)⟩

/-- Claim C8: whenever the transformer succeeds on a record, the engine
was called with the extracted easting/northing floats and zone integer,
and with `isNorthernHemisphere` true exactly when the hemisphere value
(the configured default when the field is absent), trimmed when textual,
equals the configured northern-sentinel string under Python `==`
(case-sensitive string equality; any non-string or different string
selects the southern branch). -/
theorem claim8_hemisphere (cfg : Config) (e : Entity)
    (out : List (String × OutValue)) (h : transform_entity cfg e = .ok out) :
    ∃ ev nv zv hv ef nf zi,
      fetch_mandatory e cfg.easting_property = .ok ev ∧
      fetch_mandatory e cfg.northing_property = .ok nv ∧
      fetch_optional e cfg.zone_property (.str cfg.zone_default) = .ok zv ∧
      fetch_optional e cfg.hemi_property (.str cfg.hemi_default) = .ok hv ∧
      pyFloat (pyStripIfStr ev) = some ef ∧
      pyFloat (pyStripIfStr nv) = some nf ∧
      pyInt (pyStripIfStr zv) = some zi ∧
      out = augment cfg e (utm_xy_to_lat_lon (ef : ℝ) (nf : ℝ) (zi : ℝ)
        (pyStrEq (pyStripIfStr hv) cfg.hemi_northern_value)) :=
  transform_ok_inversion cfg e out h

/-- Witness for claim C8 at a concrete record that reaches the engine
with the default configuration (hemisphere default `"0"` equals the
northern sentinel `"0"`, so the northern branch is chosen). -/
theorem claim8_witness :
    ∃ out, transform_entity defaultConfig entC8 = Outcome.ok out ∧
      ∃ ev nv zv hv ef nf zi,
        fetch_mandatory entC8 defaultConfig.easting_property = .ok ev ∧
        fetch_mandatory entC8 defaultConfig.northing_property = .ok nv ∧
        fetch_optional entC8 defaultConfig.zone_property
          (.str defaultConfig.zone_default) = .ok zv ∧
        fetch_optional entC8 defaultConfig.hemi_property
          (.str defaultConfig.hemi_default) = .ok hv ∧
        pyFloat (pyStripIfStr ev) = some ef ∧
        pyFloat (pyStripIfStr nv) = some nf ∧
        pyInt (pyStripIfStr zv) = some zi ∧
        out = augment defaultConfig entC8
          (utm_xy_to_lat_lon (ef : ℝ) (nf : ℝ) (zi : ℝ)
            (pyStrEq (pyStripIfStr hv) defaultConfig.hemi_northern_value)) :=
  ⟨_, rfl, claim8_hemisphere defaultConfig entC8 _ rfl⟩

/-- Claim C9: on success the output record differs from the input only
in the configured latitude/longitude fields (and, when the combined
option is enabled, the combined field holding the formatted pair of the
same two values): every other field keeps its original value and
relative order, and pre-existing values under the output field names are
overwritten.  The configured output field names are assumed pairwise
distinct. -/
theorem claim9_frame (cfg : Config) (e : Entity)
    (out : List (String × OutValue)) (h : transform_entity cfg e = .ok out)
    (h1 : cfg.lat_property ≠ cfg.long_property)
    (h2 : b_include_latlong cfg = true →
      cfg.latlong_property ≠ cfg.lat_property ∧
      cfg.latlong_property ≠ cfg.long_property) :
    (∀ k, k ∉ writtenKeys cfg →
      lookupField out k = (lookupField e k).map OutValue.orig) ∧
    dropKeys out (writtenKeys cfg) =
      liftEntity (dropKeys e (writtenKeys cfg)) ∧
    ∃ lat lon : ℝ,
      lookupField out cfg.lat_property = some (OutValue.fnum lat) ∧
      lookupField out cfg.long_property = some (OutValue.fnum lon) ∧
      (b_include_latlong cfg = true →
        lookupField out cfg.latlong_property =
          some (OutValue.fstr lat lon)) := by
  obtain ⟨ev, nv, zv, hv, ef, nf, zi, hE, hN, hZ, hH, hf, hn, hz, hout⟩ :=
    transform_ok_inversion cfg e out h
  subst hout
  exact augment_frame cfg e _ h1 h2

/-- Witness for claim C9 at a concrete record carrying a passthrough
field and a pre-existing `lat` value, under the default configuration. -/
theorem claim9_witness :
    ∃ out, transform_entity defaultConfig entC9 = Outcome.ok out ∧
      ((∀ k, k ∉ writtenKeys defaultConfig →
        lookupField out k = (lookupField entC9 k).map OutValue.orig) ∧
      dropKeys out (writtenKeys defaultConfig) =
        liftEntity (dropKeys entC9 (writtenKeys defaultConfig)) ∧
      ∃ lat lon : ℝ,
        lookupField out defaultConfig.lat_property =
          some (OutValue.fnum lat) ∧
        lookupField out defaultConfig.long_property =
          some (OutValue.fnum lon) ∧
        (b_include_latlong defaultConfig = true →
          lookupField out defaultConfig.latlong_property =
            some (OutValue.fstr lat lon))) :=
  ⟨_, rfl, claim9_frame defaultConfig entC9 _ rfl (by decide)
    (fun hc => absurd hc (by decide))⟩

end TransformService
